import Mathlib

/-!
Verification of the claims-companion backend (Express + PostgreSQL) against its
natural-language specification.  The relevant route handlers are embedded
shallowly: the database is an explicit record of table contents, each HTTP
handler is a pure function from the database and the request to an outcome
record (HTTP response, new database, list of Socket.IO events emitted, and
whether an asynchronous AI turn was spawned).  The Socket.IO server instance is
set once at startup (src/index.js), so the `if (io)` guards in the handlers are
modelled as taken.  Infrastructure failures of the synchronous-phase database
queries (the catch-all 500 paths) are outside the model; the database write of
the asynchronous AI message is modelled with an explicit outcome parameter
because the specification speaks about that failure path.
-/

namespace ClaimsCompanion

/-- JS truthiness of an optional string field of a JSON body:
an absent field and the empty string are falsy (`!field` in the source). -/
def isTruthy : Option String → Bool
  | none => false
  | some s => !(s == "")

/-- A row of the `claims` table (backend/schema.sql); `incident_date`,
timestamps and similar columns not read by any verified handler are omitted. -/
structure Claim where
  id : Nat
  claim_number : String
  user_id : Nat
  claim_type : String
  status : String
  incident_description : Option String
  estimated_completion : Option String
deriving DecidableEq, Repr

/-- A row of the `chat_messages` table. -/
structure ChatMessage where
  id : Nat
  claim_id : Nat
  message_type : String
  message_text : String
deriving DecidableEq, Repr

/-- A row of the `claim_documents` table. -/
structure ClaimDocument where
  claim_id : Nat
  file_name : String
  file_url : String
  document_type : String
  status : String
deriving DecidableEq, Repr

/-- The database state: contents of the tables the verified handlers touch.
Lists are in insertion order (SERIAL ids / created_at ascending). -/
structure DB where
  claims : List Claim
  messages : List ChatMessage
  documents : List ClaimDocument
deriving DecidableEq, Repr

/-- A Socket.IO event emitted to the room `claim_<id>`. -/
inductive Event where
  | chat_message (claimId : Nat) (message : ChatMessage)
  | typing (claimId : Nat) (sender : String)
  | claim_updated (claimId : Nat) (status : String)
      (incident_description : Option String) (estimated_completion : Option String)
deriving DecidableEq, Repr

/-- Whether an event is a `claim_updated` event. -/
def Event.isClaimUpdated : Event → Bool
  | .claim_updated _ _ _ _ => true
  | _ => false

/-- Whether an event is a `chat_message` event. -/
def Event.isChatMessage : Event → Bool
  | .chat_message _ _ => true
  | _ => false

/-- The ownership check shared by the chat and claims routes:
`SELECT id FROM claims WHERE id = $1 AND user_id = $2` returns at least one
row. -/
def ownsClaim (db : DB) (claimId userId : Nat) : Bool :=
  db.claims.any (fun c => c.id == claimId && c.user_id == userId)

/-- The id the next `INSERT ... RETURNING id` into `chat_messages` assigns
(SERIAL column, modelled as one past the current number of rows). -/
def nextMessageId (db : DB) : Nat := db.messages.length + 1

/-- Body of `POST /api/chat/:claimId/messages`.  The handler destructures only
`message_text` and `message_type`; an `attachment` field may be present in the
JSON body (clients can send one) but is never read. -/
structure MessageRequest where
  message_text : Option String
  message_type : Option String
  attachment : Option String
deriving DecidableEq, Repr

/-- HTTP response of `POST /api/chat/:claimId/messages`. -/
inductive PostResponse where
  | badRequest (error : String)
  | notFound (error : String)
  | created (message : ChatMessage)
deriving DecidableEq, Repr

/-- HTTP status code of a `PostResponse`. -/
def PostResponse.statusCode : PostResponse → Nat
  | .badRequest _ => 400
  | .notFound _ => 404
  | .created _ => 201

/-- Outcome of the synchronous phase of `POST /api/chat/:claimId/messages`:
response to the sender, resulting database, events emitted to the claim room,
and whether the unawaited AI-turn IIFE was launched. -/
structure PostOutcome where
  response : PostResponse
  db : DB
  events : List Event
  aiTurnSpawned : Bool
deriving DecidableEq, Repr

/-- Synchronous phase of `POST /api/chat/:claimId/messages`
(src/backend/src/routes/chat.js, lines 27-90): input check, ownership check,
insert of the inbound message, `chat_message` emit, and — when the
body-supplied `message_type` is the string `user` — a `typing` emit and the
launch of the unawaited AI-turn IIFE. -/
def postMessage (db : DB) (callerId claimId : Nat) (req : MessageRequest) : PostOutcome :=
  if !(isTruthy req.message_text && isTruthy req.message_type) then
    { response := .badRequest "message_text and message_type are required",
      db := db, events := [], aiTurnSpawned := false }
  else if !(ownsClaim db claimId callerId) then
    { response := .notFound "Claim not found", db := db, events := [], aiTurnSpawned := false }
  else
    let m : ChatMessage :=
      { id := nextMessageId db, claim_id := claimId,
        message_type := req.message_type.getD "", message_text := req.message_text.getD "" }
    let spawn := req.message_type.getD "" == "user"
    { response := .created m,
      db := { db with messages := db.messages ++ [m] },
      events := Event.chat_message claimId m ::
        (if spawn then [Event.typing claimId "ai"] else []),
      aiTurnSpawned := spawn }

/-- Outcome of one call of the external text-completion provider
(`openai.createChatCompletion` in src/backend/src/services/ai.js): either a
completed chat response whose first choice carries `content`, or a rejection
(provider error or timeout surfacing as a thrown error). -/
inductive ProviderResult where
  | success (content : String)
  | failure
deriving DecidableEq, Repr

/-- The canned reply returned by the catch block of
`AIClaimsAssistant.generateResponse`. -/
def fallbackReply : String :=
  "Thank you for your message. Our team will review your claim and provide an update soon."

/-- `AIClaimsAssistant.generateResponse` (src/backend/src/services/ai.js,
lines 19-58): reads the claim row and its progress steps to build the prompt,
calls the provider, and returns the completion content; every error raised
inside the try block — a missing claim row (field access on `undefined`
throws) as well as a provider failure — is caught and turned into the
fallback reply.  The prompt text itself never reaches any observable output
modelled here, so only the claim-row lookup and the provider outcome appear. -/
def generateResponse (db : DB) (claimId : Nat) (provider : ProviderResult) : String :=
  match (db.claims.filter (fun c => c.id == claimId)).head? with
  | none => fallbackReply
  | some _ =>
      match provider with
      | .success content => content
      | .failure => fallbackReply

/-- Outcome of the `INSERT` of the AI message inside the AI-turn IIFE:
the query resolves, or it rejects (database error). -/
inductive WriteResult where
  | ok
  | dbError
deriving DecidableEq, Repr

/-- Outcome of the asynchronous AI turn: resulting database and events
emitted to the claim room. -/
structure TurnOutcome where
  db : DB
  events : List Event
deriving DecidableEq, Repr

/-- The unawaited AI-turn IIFE of `POST /api/chat/:claimId/messages`
(src/backend/src/routes/chat.js, lines 62-83): obtain the reply text from
`generateResponse`, insert it as a `chat_messages` row of type `ai`, and emit
it as a `chat_message` event; if the insert rejects, the catch block only
logs — no row is written and no event is emitted. -/
def aiTurn (db : DB) (claimId : Nat) (provider : ProviderResult) (write : WriteResult) :
    TurnOutcome :=
  let content := generateResponse db claimId provider
  match write with
  | .ok =>
      let m : ChatMessage :=
        { id := nextMessageId db, claim_id := claimId,
          message_type := "ai", message_text := content }
      { db := { db with messages := db.messages ++ [m] },
        events := [Event.chat_message claimId m] }
  | .dbError => { db := db, events := [] }

/-- HTTP response of `GET /api/chat/:claimId/history`. -/
inductive HistoryResponse where
  | notFound (error : String)
  | ok (history : List ChatMessage)
deriving DecidableEq, Repr

/-- `GET /api/chat/:claimId/history` (src/backend/src/routes/chat.js,
lines 93-113): ownership check, then the claim messages in creation order. -/
def getHistory (db : DB) (callerId claimId : Nat) : HistoryResponse :=
  if !(ownsClaim db claimId callerId) then .notFound "Claim not found"
  else .ok (db.messages.filter (fun m => m.claim_id == claimId))

/-- HTTP response of `POST /api/chat/:claimId/escalate`. -/
inductive EscalateResponse where
  | notFound (error : String)
  | ok (message : ChatMessage)
deriving DecidableEq, Repr

/-- The hand-off text inserted by the escalate route. -/
def handoffText : String :=
  "A human claims handler has been notified and will join this conversation shortly."

/-- Outcome of `POST /api/chat/:claimId/escalate`. -/
structure EscalateOutcome where
  response : EscalateResponse
  db : DB
  events : List Event
deriving DecidableEq, Repr

/-- `POST /api/chat/:claimId/escalate` (src/backend/src/routes/chat.js,
lines 116-145): ownership check, insert of the hand-off text as a
`chat_messages` row of type `ai`, and a `chat_message` emit.  No column of
the `claims` table is written (the schema has no `manual_review_required`
column) and no `claim_updated` event is emitted. -/
def escalate (db : DB) (callerId claimId : Nat) : EscalateOutcome :=
  if !(ownsClaim db claimId callerId) then
    { response := .notFound "Claim not found", db := db, events := [] }
  else
    let m : ChatMessage :=
      { id := nextMessageId db, claim_id := claimId,
        message_type := "ai", message_text := handoffText }
    { response := .ok m,
      db := { db with messages := db.messages ++ [m] },
      events := [Event.chat_message claimId m] }

/-- Body of `PUT /api/claims/:id`. -/
structure UpdateRequest where
  status : Option String
  incident_description : Option String
  estimated_completion : Option String
deriving DecidableEq, Repr

/-- The `value || null` pattern of the update route: an absent field and the
empty string both become SQL NULL. -/
def jsOrNull : Option String → Option String
  | none => none
  | some s => if s == "" then none else some s

/-- SQL `COALESCE(new, old)`. -/
def coalesce (new old : Option String) : Option String :=
  match new with
  | some v => some v
  | none => old

/-- The `SET` clause of `UPDATE claims` in `PUT /api/claims/:id`
(src/backend/src/routes/claims.js, lines 114-122): each of `status`,
`incident_description` and `estimated_completion` is `COALESCE(param, old)`;
no other data column appears in the clause. -/
def applyClaimUpdate (c : Claim) (r : UpdateRequest) : Claim :=
  { c with
    status := (jsOrNull r.status).getD c.status,
    incident_description := coalesce (jsOrNull r.incident_description) c.incident_description,
    estimated_completion := coalesce (jsOrNull r.estimated_completion) c.estimated_completion }

/-- Outcome of `PUT /api/claims/:id`: the returned claim row (`none` is the
404 path), the resulting database, and the emitted events. -/
structure UpdateOutcome where
  response : Option Claim
  db : DB
  events : List Event
deriving DecidableEq, Repr

/-- `PUT /api/claims/:id` (src/backend/src/routes/claims.js, lines 109-144):
update rows matching `id = $4 AND user_id = $5`; when a row was matched,
return it and emit a `claim_updated` event with the new field values,
otherwise respond 404. -/
def updateClaim (db : DB) (callerId claimId : Nat) (r : UpdateRequest) : UpdateOutcome :=
  let newDB : DB :=
    { db with claims := db.claims.map (fun c =>
        if c.id == claimId && c.user_id == callerId then applyClaimUpdate c r else c) }
  match (db.claims.filter (fun c => c.id == claimId && c.user_id == callerId)).head? with
  | none => { response := none, db := newDB, events := [] }
  | some c0 =>
      let c := applyClaimUpdate c0 r
      { response := some c, db := newDB,
        events := [Event.claim_updated claimId c.status
          c.incident_description c.estimated_completion] }

/-- Body of `POST /api/claims/:id/documents`. -/
structure DocumentRequest where
  file_name : Option String
  file_url : Option String
  document_type : Option String
deriving DecidableEq, Repr

/-- HTTP response of `POST /api/claims/:id/documents`. -/
inductive DocumentResponse where
  | badRequest (error : String)
  | notFound (error : String)
  | created (document : ClaimDocument)
deriving DecidableEq, Repr

/-- Outcome of `POST /api/claims/:id/documents`. -/
structure DocumentOutcome where
  response : DocumentResponse
  db : DB
  events : List Event
deriving DecidableEq, Repr

/-- `POST /api/claims/:id/documents` (src/backend/src/routes/claims.js,
lines 168-193): input check, ownership check, insert of the document row with
status `pending_review`.  No validation of the document is performed and no
event is emitted. -/
def uploadDocument (db : DB) (callerId claimId : Nat) (req : DocumentRequest) :
    DocumentOutcome :=
  if !(isTruthy req.file_name && isTruthy req.file_url && isTruthy req.document_type) then
    { response := .badRequest "file_name, file_url, and document_type are required",
      db := db, events := [] }
  else if !(ownsClaim db claimId callerId) then
    { response := .notFound "Claim not found", db := db, events := [] }
  else
    let d : ClaimDocument :=
      { claim_id := claimId, file_name := req.file_name.getD "",
        file_url := req.file_url.getD "", document_type := req.document_type.getD "",
        status := "pending_review" }
    { response := .created d,
      db := { db with documents := db.documents ++ [d] },
      events := [] }

/-- Body of `POST /api/ai/validate-document`. -/
structure ValidateDocumentRequest where
  documentType : Option String
  extractedText : Option String
deriving DecidableEq, Repr

/-- JSON response of `POST /api/ai/validate-document`. -/
structure ValidateDocumentResponse where
  isValid : Bool
  missingFields : List String
  suggestions : List String
deriving DecidableEq, Repr

/-- `POST /api/ai/validate-document` (src/backend/src/routes/ai.js,
lines 27-36): the body is destructured but never inspected; the response is
the fixed object with `isValid` true and empty lists. -/
def validateDocument (_req : ValidateDocumentRequest) : ValidateDocumentResponse :=
  { isValid := true, missingFields := [], suggestions := [] }

/-- The observable data-store actions of one AI-turn IIFE, in program order:
`generateResponse` first reads the claim context (the claim row, the progress
steps — each an awaited query, hence a suspension point), then the IIFE
writes the AI message row.  Each unawaited IIFE preserves this internal
order, but the route handler imposes no synchronization between two IIFEs
spawned for the same claim. -/
inductive TurnAction where
  | readContext
  | writeMessage
deriving DecidableEq, Repr

/-- Program order of one AI turn. -/
def turnActions : List TurnAction := [TurnAction.readContext, TurnAction.writeMessage]

/-- Event-loop scheduling of two pending action sequences: at each step the
schedule picks turn 1 (`true`) or turn 2 (`false`); the chosen turn performs
its next action.  A pick of an exhausted turn performs nothing.  Every
schedule is admissible because the handler spawns both IIFEs without any
per-claim lock or queue. -/
def runSched : List Bool → List TurnAction → List TurnAction → List (Nat × TurnAction)
  | [], _, _ => []
  | true :: s, a :: p1, p2 => (1, a) :: runSched s p1 p2
  | true :: s, [], p2 => runSched s [] p2
  | false :: s, p1, a :: p2 => (2, a) :: runSched s p1 p2
  | false :: s, p1, [] => runSched s p1 []

/-- The trace of two AI turns for the same claim under a schedule. -/
def twoTurnTrace (s : List Bool) : List (Nat × TurnAction) :=
  runSched s turnActions turnActions

/-- Helper scan for `serializedTrace`: the flag records whether turn 1 has
already performed its message write. -/
def serializedFrom : Bool → List (Nat × TurnAction) → Bool
  | _, [] => true
  | done1, (i, a) :: t =>
      if i == 2 && a == TurnAction.readContext && !done1 then false
      else serializedFrom (done1 || (i == 1 && a == TurnAction.writeMessage)) t

/-- A trace is serialized when the second turn reads the claim context only
after the first turn has persisted its AI message. -/
def serializedTrace (t : List (Nat × TurnAction)) : Bool := serializedFrom false t

/-- A motor claim owned by user 10 — sample data for concrete evaluations. -/
def sampleClaim : Claim :=
  { id := 1, claim_number := "CLM100", user_id := 10, claim_type := "motor",
    status := "submitted", incident_description := some "collision", estimated_completion := none }

/-- A database holding just `sampleClaim`. -/
def sampleDB : DB := { claims := [sampleClaim], messages := [], documents := [] }

/-- A request whose `message_type` is the string `user`. -/
def userReq (text : String) : MessageRequest :=
  { message_text := some text, message_type := some "user", attachment := none }

/-- A body carrying only message text (no `message_type`, no attachment). -/
def textOnlyReq : MessageRequest :=
  { message_text := some "hello", message_type := none, attachment := none }

/-- A body carrying text, type `user`, and an attachment reference. -/
def attachReq : MessageRequest :=
  { message_text := some "here is my police report", message_type := some "user",
    attachment := some "police_report.pdf" }

/-- A body whose client-supplied `message_type` is `agent`, sent by the claim
owner (a claimant). -/
def spoofReq : MessageRequest :=
  { message_text := some "note", message_type := some "agent", attachment := none }

/-- A well-formed document-upload body. -/
def sampleDocReq : DocumentRequest :=
  { file_name := some "report.pdf", file_url := some "https://files/report.pdf",
    document_type := some "police_report" }

/-- Helper: on a provider failure the generated reply is the fallback text
regardless of the database contents — both match branches of
`generateResponse` end in `fallbackReply`. -/
theorem generateResponse_failure (db : DB) (claimId : Nat) :
    generateResponse db claimId ProviderResult.failure = fallbackReply := by
  unfold generateResponse
  cases (db.claims.filter (fun c => c.id == claimId)).head? <;> rfl

/-- C1: the claim states that for a single claim the AI turn of a second
accepted user message never reads the claim context before the AI turn of the
first message has finished persisting its writes.  This is false: the route
handler launches each AI turn as an unawaited IIFE with no per-claim lock, so
the event-loop schedule that runs the whole second turn before the first is
admissible, and its trace is not serialized. -/
theorem C1_turns_not_serialized_counterexample :
    ¬ (∀ s : List Bool, serializedTrace (twoTurnTrace s) = true) := by
  intro h
  exact absurd (h [false, false, true, true]) (by decide)

/-- C1 amended: AI turns for the same claim are fire-and-forget — the handler
spawns each turn unawaited with no per-claim lock or queue, so the
interleaving of two turns is schedule-dependent: there is an admissible
schedule under which the second turn reads the claim context only after the
first turn persisted its message, and an admissible schedule under which the
second turn reads the context (and even writes) before the first turn has
written, so the two turns data-store accesses can interleave. -/
theorem C1_fire_and_forget_admits_race :
    serializedTrace (twoTurnTrace [true, true, false, false]) = true
  ∧ serializedTrace (twoTurnTrace [false, false, true, true]) = false := by decide

/-- C2: when the provider call of the AI turn fails, the sender of the user
message still got a 201 response (no error is propagated), the AI turn was
spawned, and — with the database insert succeeding — the turn persists
exactly one message of type `ai` carrying the generic fallback text and
emits exactly one `chat_message` event carrying that message. -/
theorem C2_provider_failure_one_fallback_reply (db : DB) (uid cid : Nat) (text : String)
    (htext : text ≠ "") (hown : ownsClaim db cid uid = true) :
    (postMessage db uid cid (userReq text)).response.statusCode = 201
  ∧ (postMessage db uid cid (userReq text)).aiTurnSpawned = true
  ∧ (aiTurn (postMessage db uid cid (userReq text)).db cid
        ProviderResult.failure WriteResult.ok).db.messages
      = (postMessage db uid cid (userReq text)).db.messages ++
        [{ id := nextMessageId (postMessage db uid cid (userReq text)).db, claim_id := cid,
           message_type := "ai", message_text := fallbackReply }]
  ∧ (aiTurn (postMessage db uid cid (userReq text)).db cid
        ProviderResult.failure WriteResult.ok).events
      = [Event.chat_message cid
          { id := nextMessageId (postMessage db uid cid (userReq text)).db, claim_id := cid,
            message_type := "ai", message_text := fallbackReply }] := by
  have ht : (text == "") = false := beq_eq_false_iff_ne.mpr htext
  simp [postMessage, userReq, isTruthy, ht, hown, aiTurn, generateResponse_failure,
    PostResponse.statusCode]

/-- C2 witness at a concrete database and message. -/
theorem C2_provider_failure_one_fallback_reply_witness :
    "hello" ≠ "" ∧ ownsClaim sampleDB 1 10 = true ∧
      (postMessage sampleDB 10 1 (userReq "hello")).response.statusCode = 201 :=
  ⟨by decide, by decide,
    (C2_provider_failure_one_fallback_reply sampleDB 10 1 "hello" (by decide) (by decide)).1⟩

/-- C3: the claim states that escalate sets `manual_review_required` to true
and publishes a `claim_updated` event besides the hand-off message.  This is
false: on a concrete owned claim, escalate emits no `claim_updated` event and
leaves every row of the claims table unchanged — the schema has no
`manual_review_required` column and the route writes only `chat_messages`. -/
theorem C3_escalate_sets_no_flag_counterexample :
    ¬ ((escalate sampleDB 10 1).events.any Event.isClaimUpdated = true
       ∨ (escalate sampleDB 10 1).db.claims ≠ sampleDB.claims) := by decide

/-- C3 amended: escalate, called by the claim owner, persists one hand-off
message of type `ai` with the fixed hand-off text and emits one
`chat_message` event for it; it modifies no claim row and emits no
`claim_updated` event; calling it twice persists two hand-off messages and
both calls return success. -/
theorem C3_escalate_message_only (db : DB) (uid cid : Nat)
    (hown : ownsClaim db cid uid = true) :
    ∃ m1 m2 : ChatMessage,
      (escalate db uid cid).response = EscalateResponse.ok m1
    ∧ m1.message_type = "ai" ∧ m1.message_text = handoffText
    ∧ (escalate db uid cid).db.messages = db.messages ++ [m1]
    ∧ (escalate db uid cid).db.claims = db.claims
    ∧ (escalate db uid cid).events = [Event.chat_message cid m1]
    ∧ (escalate (escalate db uid cid).db uid cid).response = EscalateResponse.ok m2
    ∧ m2.message_type = "ai" ∧ m2.message_text = handoffText
    ∧ (escalate (escalate db uid cid).db uid cid).db.messages = db.messages ++ [m1, m2]
    ∧ (escalate (escalate db uid cid).db uid cid).db.claims = db.claims := by
  refine ⟨{ id := nextMessageId db, claim_id := cid,
            message_type := "ai", message_text := handoffText },
          { id := nextMessageId (escalate db uid cid).db, claim_id := cid,
            message_type := "ai", message_text := handoffText }, ?_⟩
  have hrec : ownsClaim
      (⟨db.claims, db.messages ++ [⟨nextMessageId db, cid, "ai", handoffText⟩],
        db.documents⟩ : DB) cid uid = true := hown
  simp [escalate, hown, hrec]

/-- C3 witness at a concrete database. -/
theorem C3_escalate_message_only_witness :
    ownsClaim sampleDB 1 10 = true ∧
      ∃ m1 m2 : ChatMessage,
        (escalate sampleDB 10 1).response = EscalateResponse.ok m1
      ∧ m1.message_type = "ai" ∧ m1.message_text = handoffText
      ∧ (escalate sampleDB 10 1).db.messages = sampleDB.messages ++ [m1]
      ∧ (escalate sampleDB 10 1).db.claims = sampleDB.claims
      ∧ (escalate sampleDB 10 1).events = [Event.chat_message 1 m1]
      ∧ (escalate (escalate sampleDB 10 1).db 10 1).response = EscalateResponse.ok m2
      ∧ m2.message_type = "ai" ∧ m2.message_text = handoffText
      ∧ (escalate (escalate sampleDB 10 1).db 10 1).db.messages = sampleDB.messages ++ [m1, m2]
      ∧ (escalate (escalate sampleDB 10 1).db 10 1).db.claims = sampleDB.claims :=
  ⟨by decide, C3_escalate_message_only sampleDB 10 1 (by decide)⟩

/-- C4: for every request whose caller does not own the target claim (whether
the claim exists under another user or does not exist at all), the message,
history and escalate routes answer with the constant 404 body
`Claim not found` — never a 403 — and perform no write and emit no event; the
message route additionally runs its input check first, so a malformed body
gets the same 400 answer either way.  Because the response is the same
constant in both no-ownership situations, nothing distinguishes a foreign
claim from a missing one. -/
theorem C4_foreign_claim_not_found (db : DB) (uid cid : Nat) (req : MessageRequest)
    (hown : ownsClaim db cid uid = false) :
    ((isTruthy req.message_text && isTruthy req.message_type) = true →
        (postMessage db uid cid req).response = PostResponse.notFound "Claim not found")
  ∧ (postMessage db uid cid req).db = db
  ∧ (postMessage db uid cid req).events = []
  ∧ (postMessage db uid cid req).aiTurnSpawned = false
  ∧ getHistory db uid cid = HistoryResponse.notFound "Claim not found"
  ∧ (escalate db uid cid).response = EscalateResponse.notFound "Claim not found"
  ∧ (escalate db uid cid).db = db
  ∧ (escalate db uid cid).events = [] := by
  cases hc : (isTruthy req.message_text && isTruthy req.message_type) <;>
    simp [postMessage, getHistory, escalate, hc, hown]

/-- C4 witness: claim 1 exists in the sample database but belongs to user 10,
and caller 77 gets the 404 with no write. -/
theorem C4_foreign_claim_not_found_witness :
    ownsClaim sampleDB 1 77 = false
  ∧ (postMessage sampleDB 77 1 (userReq "hi")).db = sampleDB
  ∧ getHistory sampleDB 77 1 = HistoryResponse.notFound "Claim not found" :=
  ⟨by decide,
    (C4_foreign_claim_not_found sampleDB 77 1 (userReq "hi") (by decide)).2.1,
    (C4_foreign_claim_not_found sampleDB 77 1 (userReq "hi") (by decide)).2.2.2.2.1⟩

/-- C5: the claim states that message submission fails with InvalidInput if
and only if both the text and the attachment are absent, so a body carrying
only text is accepted.  This is false: a body carrying text but no
`message_type` is rejected with the 400 error — the input check requires
`message_text` and `message_type` and never looks at an attachment. -/
theorem C5_text_only_rejected_counterexample :
    (postMessage sampleDB 10 1 textOnlyReq).response
      = PostResponse.badRequest "message_text and message_type are required" := by decide

/-- C5 amended: the message route answers 400 exactly when `message_text` or
`message_type` is absent or empty (JS falsy); the attachment plays no role;
on that 400 path nothing is written, no event is emitted and no AI turn is
spawned. -/
theorem C5_invalid_input_iff_text_or_type_missing (db : DB) (uid cid : Nat)
    (req : MessageRequest) :
    ((postMessage db uid cid req).response.statusCode = 400
        ↔ (isTruthy req.message_text && isTruthy req.message_type) = false)
  ∧ ((isTruthy req.message_text && isTruthy req.message_type) = false →
        (postMessage db uid cid req).db = db
        ∧ (postMessage db uid cid req).events = []
        ∧ (postMessage db uid cid req).aiTurnSpawned = false) := by
  cases hc : (isTruthy req.message_text && isTruthy req.message_type) with
  | false => simp [postMessage, hc, PostResponse.statusCode]
  | true =>
      cases hown : ownsClaim db cid uid <;>
        simp [postMessage, hc, hown, PostResponse.statusCode]

/-- C5 witness at the concrete text-only body. -/
theorem C5_invalid_input_iff_text_or_type_missing_witness :
    ((postMessage sampleDB 10 1 textOnlyReq).response.statusCode = 400
        ↔ (isTruthy textOnlyReq.message_text && isTruthy textOnlyReq.message_type) = false)
  ∧ ((isTruthy textOnlyReq.message_text && isTruthy textOnlyReq.message_type) = false →
        (postMessage sampleDB 10 1 textOnlyReq).db = sampleDB
        ∧ (postMessage sampleDB 10 1 textOnlyReq).events = []
        ∧ (postMessage sampleDB 10 1 textOnlyReq).aiTurnSpawned = false) :=
  C5_invalid_input_iff_text_or_type_missing sampleDB 10 1 textOnlyReq

/-- C6: the claim states that a message submission carrying an attachment
persists a Document row and synchronously runs a validation pass.  This is
false: a submission whose body carries an attachment reference succeeds (201)
yet leaves the documents table and the claims table untouched — the handler
never reads the attachment. -/
theorem C6_attachment_ignored_counterexample :
    (postMessage sampleDB 10 1 attachReq).response.statusCode = 201
  ∧ (postMessage sampleDB 10 1 attachReq).db.documents = sampleDB.documents
  ∧ (postMessage sampleDB 10 1 attachReq).db.claims = sampleDB.claims := by decide

/-- C6 amended: a message submission never persists any Document row and
never touches the claims table, whatever the body carries; Document rows are
created only by the separate documents route, which stores the row with the
fixed status `pending_review`, emits no event, performs no validation pass
and leaves the claims table unchanged. -/
theorem C6_no_document_from_message (db : DB) (uid cid : Nat)
    (req : MessageRequest) (dreq : DocumentRequest)
    (hval : (isTruthy dreq.file_name && isTruthy dreq.file_url
      && isTruthy dreq.document_type) = true)
    (hown : ownsClaim db cid uid = true) :
    (postMessage db uid cid req).db.documents = db.documents
  ∧ (postMessage db uid cid req).db.claims = db.claims
  ∧ (uploadDocument db uid cid dreq).db.documents = db.documents ++
      [{ claim_id := cid, file_name := dreq.file_name.getD "",
         file_url := dreq.file_url.getD "", document_type := dreq.document_type.getD "",
         status := "pending_review" }]
  ∧ (uploadDocument db uid cid dreq).events = []
  ∧ (uploadDocument db uid cid dreq).db.claims = db.claims := by
  refine ⟨?_, ?_, ?_, ?_, ?_⟩ <;>
    first
      | (cases hc : (isTruthy req.message_text && isTruthy req.message_type) with
          | false => simp [postMessage, hc]
          | true => cases hown2 : ownsClaim db cid uid <;> simp [postMessage, hc, hown2])
      | simp [uploadDocument, hval, hown]

/-- C6 witness at a concrete database, message body and document body. -/
theorem C6_no_document_from_message_witness :
    (isTruthy sampleDocReq.file_name && isTruthy sampleDocReq.file_url
        && isTruthy sampleDocReq.document_type) = true
  ∧ ownsClaim sampleDB 1 10 = true
  ∧ (postMessage sampleDB 10 1 attachReq).db.documents = sampleDB.documents
  ∧ (uploadDocument sampleDB 10 1 sampleDocReq).events = [] :=
  ⟨by decide, by decide,
    (C6_no_document_from_message sampleDB 10 1 attachReq sampleDocReq
      (by decide) (by decide)).1,
    (C6_no_document_from_message sampleDB 10 1 attachReq sampleDocReq
      (by decide) (by decide)).2.2.2.1⟩

/-- C7: the claim states that every code path of the AI turn — including a
failed database write of the AI message — ends in a `chat_message` delivery
that clears the typing indicator.  This is false: when the insert of the AI
message rejects, the catch block only logs, so the turn emits no event at all
and the typing indicator emitted before the turn is never cleared. -/
theorem C7_db_error_leaves_typing_counterexample :
    (aiTurn sampleDB 1 (ProviderResult.success "All good") WriteResult.dbError).events = []
  ∧ (aiTurn sampleDB 1 (ProviderResult.success "All good")
      WriteResult.dbError).events.any Event.isChatMessage = false := by decide

/-- C7 amended: when the insert of the AI message succeeds the turn emits
exactly one `chat_message` event (clearing the typing indicator) on both the
provider-success and the provider-failure path; when the insert rejects the
turn emits nothing, leaving the typing indicator uncleared. -/
theorem C7_typing_cleared_only_on_successful_write (db : DB) (cid : Nat)
    (provider : ProviderResult) :
    (aiTurn db cid provider WriteResult.ok).events
      = [Event.chat_message cid
          { id := nextMessageId db, claim_id := cid, message_type := "ai",
            message_text := generateResponse db cid provider }]
  ∧ (aiTurn db cid provider WriteResult.dbError).events = [] :=
  ⟨rfl, rfl⟩

/-- C8: the claim states that the stored message type equals the
authenticated sender role and that an AI turn runs exactly when that role is
`user`.  This is false: the claim owner (a claimant) can supply
`message_type` `agent` in the body; the message is stored with type `agent`
and no AI turn is spawned, even though the sender is a user — the JWT
payload carries no role at all. -/
theorem C8_body_controls_type_counterexample :
    (postMessage sampleDB 10 1 spoofReq).response
      = PostResponse.created
          { id := 1, claim_id := 1, message_type := "agent", message_text := "note" }
  ∧ (postMessage sampleDB 10 1 spoofReq).aiTurnSpawned = false := by decide

/-- C8 amended: on an accepted submission the stored message type is the
client-supplied `message_type` body field verbatim, and the AI turn is
spawned exactly when that body field is the string `user`; the authenticated
identity enters only the ownership check. -/
theorem C8_type_and_turn_from_body (db : DB) (uid cid : Nat) (req : MessageRequest)
    (hval : (isTruthy req.message_text && isTruthy req.message_type) = true)
    (hown : ownsClaim db cid uid = true) :
    (postMessage db uid cid req).response = PostResponse.created
      { id := nextMessageId db, claim_id := cid,
        message_type := req.message_type.getD "", message_text := req.message_text.getD "" }
  ∧ (postMessage db uid cid req).db.messages = db.messages ++
      [{ id := nextMessageId db, claim_id := cid,
         message_type := req.message_type.getD "", message_text := req.message_text.getD "" }]
  ∧ ((postMessage db uid cid req).aiTurnSpawned = true ↔ req.message_type = some "user") := by
  refine ⟨?_, ?_, ?_⟩ <;> simp [postMessage, hval, hown]
  cases hmt : req.message_type with
  | none => rw [hmt] at hval; simp [isTruthy] at hval
  | some s => simp

/-- C8 witness: a body whose `message_type` is `user` is stored as `user` and
spawns the AI turn. -/
theorem C8_type_and_turn_from_body_witness :
    (isTruthy (userReq "hello").message_text && isTruthy (userReq "hello").message_type) = true
  ∧ ownsClaim sampleDB 1 10 = true
  ∧ ((postMessage sampleDB 10 1 (userReq "hello")).aiTurnSpawned = true
      ↔ (userReq "hello").message_type = some "user") :=
  ⟨by decide, by decide,
    (C8_type_and_turn_from_body sampleDB 10 1 (userReq "hello")
      (by decide) (by decide)).2.2⟩

/-- C9: the update route can change only `status`, `incident_description`,
`estimated_completion` and `updated_at`; whatever combination of inputs is
supplied, every row of the claims table keeps its claim number and its owner
— the claim number is immutable once assigned. -/
theorem C9_update_preserves_number_and_owner (db : DB) (uid cid : Nat) (r : UpdateRequest) :
    (updateClaim db uid cid r).db.claims.map Claim.claim_number
      = db.claims.map Claim.claim_number
  ∧ (updateClaim db uid cid r).db.claims.map Claim.user_id
      = db.claims.map Claim.user_id := by
  have hdb : (updateClaim db uid cid r).db.claims
      = db.claims.map (fun c =>
          if c.id == cid && c.user_id == uid then applyClaimUpdate c r else c) := by
    unfold updateClaim
    cases (db.claims.filter (fun c => c.id == cid && c.user_id == uid)).head? <;> rfl
  rw [hdb, List.map_map, List.map_map]
  constructor <;>
    · apply List.map_congr_left
      intro c _
      by_cases h : (c.id == cid && c.user_id == uid) = true <;>
        simp [h, applyClaimUpdate, Function.comp]

/-- C10: the document-validation route is a constant function: for every
body — whatever `documentType` and `extractedText` hold, present or absent —
the response is exactly `isValid` true with empty `missingFields` and
`suggestions`. -/
theorem C10_validate_document_constant (req : ValidateDocumentRequest) :
    validateDocument req = { isValid := true, missingFields := [], suggestions := [] } :=
  rfl

end ClaimsCompanion
